import Mathlib

/-!
Shallow embedding of the simulation core of the T-Rex runner game
(obstacle spawning, jump physics, score/achievement tracking, collision
detection, frame orchestration), together with theorems checking the
natural-language specification against the code.

Numeric conventions: JavaScript numbers are modelled as rationals (ℚ)
where fractional values occur, and as integers (ℤ) where the source only
ever holds integral values.  `Math.floor` is `Int.floor`, `Math.round x`
is `⌊x + 1/2⌋` (the JavaScript semantics, which rounds halves towards
positive infinity).  `Math.random()` results are passed in explicitly as
rational parameters `r` with `0 ≤ r < 1`.
-/

/-- JavaScript `Math.floor` on a rational. -/
def jsFloor (q : ℚ) : ℤ := ⌊q⌋

/-- JavaScript `Math.round` on a rational: `⌊q + 1/2⌋`. -/
def jsRound (q : ℚ) : ℤ := ⌊q + 1/2⌋

/-- `getRandomNum(min, max)` from the utilities file:
`Math.floor(Math.random() * (max - min + 1)) + min`, with the draw of
`Math.random()` made explicit as the parameter `r`. -/
def getRandomNum (min max : ℤ) (r : ℚ) : ℤ :=
  jsFloor (r * ((max : ℚ) - (min : ℚ) + 1)) + min

/-- `CollisionBox(x, y, width, height)`: offsets relative to an owning
sprite's top-left.  The class body is not among the provided sources, but
every constructor call and field access in them fixes it to this record. -/
structure CollisionBox where
  x : ℤ
  y : ℤ
  width : ℤ
  height : ℤ
  deriving DecidableEq, Repr

/-- One entry of the static obstacle catalog `Obstacle.types`. -/
structure ObstacleType where
  width : ℤ
  height : ℤ
  yPos : ℤ
  multipleSpeed : ℤ
  minGap : ℤ
  collisionBoxes : List CollisionBox
  deriving DecidableEq, Repr

/-- The `CACTUS_SMALL` entry of `Obstacle.types`. -/
def cactusSmall : ObstacleType :=
  { width := 17, height := 35, yPos := 105, multipleSpeed := 3, minGap := 120,
    collisionBoxes := [⟨0, 7, 5, 27⟩, ⟨4, 0, 6, 34⟩, ⟨10, 4, 7, 14⟩] }

/-- The `CACTUS_LARGE` entry of `Obstacle.types`. -/
def cactusLarge : ObstacleType :=
  { width := 25, height := 50, yPos := 90, multipleSpeed := 6, minGap := 120,
    collisionBoxes := [⟨0, 12, 7, 38⟩, ⟨8, 0, 7, 49⟩, ⟨13, 10, 10, 38⟩] }

/-- `Obstacle.types`, the static catalog. -/
def obstacleTypes : List ObstacleType := [cactusSmall, cactusLarge]

/-- Mutable state of one `Obstacle` instance (the fields the simulation
reads and writes; canvas/image references are rendering-only and omitted). -/
structure Obstacle where
  typeConfig : ObstacleType
  gapCoefficient : ℚ
  size : ℤ
  remove : Bool
  xPos : ℤ
  yPos : ℤ
  width : ℤ
  collisionBoxes : List CollisionBox
  gap : ℤ
  followingObstacleCreated : Bool
  deriving DecidableEq, Repr

namespace Obstacle

/-- `Obstacle.MAX_GAP_COEFFICIENT`. -/
def MAX_GAP_COEFFICIENT : ℚ := 3/2

/-- `Obstacle.MAX_OBSTACLE_LENGTH`. -/
def MAX_OBSTACLE_LENGTH : ℤ := 3

/-- `Obstacle.prototype.getGap(gapCoefficient, speed)` for an obstacle of
grouped width `width` and type configuration `typeConfig`; `rGap` is the
`Math.random()` draw inside `getRandomNum`. -/
def getGap (typeConfig : ObstacleType) (width : ℤ) (gapCoefficient speed rGap : ℚ) : ℤ :=
  let minGap : ℤ := jsRound ((width : ℚ) * speed + (typeConfig.minGap : ℚ) * gapCoefficient)
  let maxGap : ℤ := jsRound ((minGap : ℚ) * MAX_GAP_COEFFICIENT)
  getRandomNum minGap maxGap rGap

/-- The collision-box adjustment in `Obstacle.prototype.init` for grouped
obstacles (`size > 1`): the central box is widened to absorb the grouped
width and the last box is shifted to the trailing edge.  The source
indexes boxes 0, 1 and 2; both catalog entries supply exactly three. -/
def adjustBoxes (width : ℤ) : List CollisionBox → List CollisionBox
  | b0 :: b1 :: b2 :: rest =>
      b0 :: { b1 with width := width - b0.width - b2.width }
         :: { b2 with x := width - b2.width } :: rest
  | boxes => boxes

/-- The `Obstacle` constructor followed by `init(speed)`: `size` is drawn
by `getRandomNum(1, MAX_OBSTACLE_LENGTH)` (draw `rSize`), forced to 1 at
low speed, the grouped width and spawn position are computed, collision
boxes are cloned and adjusted, and the gap is drawn (draw `rGap`).
`dimWidth` is `dimensions.WIDTH`. -/
def spawn (type : ObstacleType) (dimWidth : ℤ) (gapCoefficient speed rSize rGap : ℚ) :
    Obstacle :=
  let size0 := getRandomNum 1 MAX_OBSTACLE_LENGTH rSize
  let size := if size0 > 1 ∧ (type.multipleSpeed : ℚ) > speed then 1 else size0
  let width := type.width * size
  let boxes := if size > 1 then adjustBoxes width type.collisionBoxes
               else type.collisionBoxes
  { typeConfig := type
    gapCoefficient := gapCoefficient
    size := size
    remove := false
    xPos := dimWidth - width
    yPos := type.yPos
    width := width
    collisionBoxes := boxes
    gap := getGap type width gapCoefficient speed rGap
    followingObstacleCreated := false }

/-- `Obstacle.prototype.isVisible()`. -/
def isVisible (o : Obstacle) : Bool := o.xPos + o.width > 0

/-- `Obstacle.prototype.update(deltaTime, speed)`: scroll left by
`Math.floor((speed * FPS / 1000) * deltaTime)` and mark for removal once
no longer visible; already-removed obstacles are untouched. -/
def update (deltaTime speed : ℚ) (o : Obstacle) : Obstacle :=
  if o.remove then o
  else
    let o' := { o with xPos := o.xPos - jsFloor ((speed * 60 / 1000) * deltaTime) }
    if ¬ o'.isVisible then { o' with remove := true } else o'

end Obstacle

section RandomBounds

/-- `getRandomNum min max r` is at least `min` when `0 ≤ r` and `min ≤ max`. -/
theorem getRandomNum_ge (min max : ℤ) (r : ℚ) (hr : 0 ≤ r) (hle : min ≤ max) :
    min ≤ getRandomNum min max r := by
  unfold getRandomNum jsFloor
  have hn : (0 : ℚ) ≤ (max : ℚ) - (min : ℚ) + 1 := by
    have : (min : ℚ) ≤ (max : ℚ) := by exact_mod_cast hle
    linarith
  have : (0 : ℚ) ≤ r * ((max : ℚ) - (min : ℚ) + 1) := mul_nonneg hr hn
  have hfl : (0 : ℤ) ≤ ⌊r * ((max : ℚ) - (min : ℚ) + 1)⌋ := by
    exact Int.le_floor.mpr (by exact_mod_cast this)
  omega

/-- `getRandomNum min max r` is at most `max` when `r < 1` and `min ≤ max`. -/
theorem getRandomNum_le (min max : ℤ) (r : ℚ) (hr : r < 1) (hle : min ≤ max) :
    getRandomNum min max r ≤ max := by
  unfold getRandomNum jsFloor
  have hn : (0 : ℚ) ≤ (max : ℚ) - (min : ℚ) + 1 := by
    have : (min : ℚ) ≤ (max : ℚ) := by exact_mod_cast hle
    linarith
  have hn' : (0 : ℚ) < (max : ℚ) - (min : ℚ) + 1 := by
    have hmm : (min : ℚ) ≤ (max : ℚ) := by exact_mod_cast hle
    linarith
  have hlt : r * ((max : ℚ) - (min : ℚ) + 1) < ((max - min + 1 : ℤ) : ℚ) := by
    push_cast
    calc r * ((max : ℚ) - (min : ℚ) + 1)
        < 1 * ((max : ℚ) - (min : ℚ) + 1) := by
          exact mul_lt_mul_of_pos_right hr hn'
      _ = (max : ℚ) - (min : ℚ) + 1 := one_mul _
  have : ⌊r * ((max : ℚ) - (min : ℚ) + 1)⌋ < max - min + 1 := Int.floor_lt.mpr hlt
  omega

end RandomBounds

section RoundHelpers

/-- `jsRound` of a non-negative rational is non-negative. -/
theorem jsRound_nonneg (q : ℚ) (h : 0 ≤ q) : 0 ≤ jsRound q := by
  unfold jsRound
  have : (0 : ℚ) ≤ q + 1/2 := by linarith
  exact Int.le_floor.mpr (by exact_mod_cast this)

/-- An integer `m ≥ 0` is at most `jsRound (m * 1.5)`. -/
theorem le_jsRound_three_halves (m : ℤ) (hm : 0 ≤ m) :
    m ≤ jsRound ((m : ℚ) * (3/2)) := by
  unfold jsRound
  have h : (m : ℚ) ≤ (m : ℚ) * (3/2) + 1/2 := by
    have : (0 : ℚ) ≤ (m : ℚ) := by exact_mod_cast hm
    linarith
  exact Int.le_floor.mpr (by exact_mod_cast h)

end RoundHelpers

namespace Obstacle

/-- The size drawn in the constructor, after the low-speed forcing in
`init`, lies between 1 and `MAX_OBSTACLE_LENGTH` = 3. -/
theorem spawn_size_bounds (type : ObstacleType) (dimWidth : ℤ)
    (gapCoefficient speed rSize rGap : ℚ) (h0 : 0 ≤ rSize) (h1 : rSize < 1) :
    1 ≤ (spawn type dimWidth gapCoefficient speed rSize rGap).size ∧
      (spawn type dimWidth gapCoefficient speed rSize rGap).size ≤ 3 := by
  have hlo := getRandomNum_ge 1 3 rSize h0 (by norm_num)
  have hhi := getRandomNum_le 1 3 rSize h1 (by norm_num)
  simp only [spawn, MAX_OBSTACLE_LENGTH]
  split
  · exact ⟨le_refl 1, by norm_num⟩
  · exact ⟨hlo, hhi⟩

/-- The grouped width `typeConfig.width * size` of a spawned obstacle is
non-negative when the catalog width is. -/
theorem spawn_width_nonneg (type : ObstacleType) (dimWidth : ℤ)
    (gapCoefficient speed rSize rGap : ℚ) (h0 : 0 ≤ rSize) (h1 : rSize < 1)
    (hw : 0 ≤ type.width) :
    0 ≤ (spawn type dimWidth gapCoefficient speed rSize rGap).width := by
  have hs := spawn_size_bounds type dimWidth gapCoefficient speed rSize rGap h0 h1
  have : (spawn type dimWidth gapCoefficient speed rSize rGap).width =
      type.width * (spawn type dimWidth gapCoefficient speed rSize rGap).size := by
    simp only [spawn]
  rw [this]
  exact mul_nonneg hw (by linarith [hs.1])

end Obstacle

/-- C1.  For every obstacle constructed at speed `s` (the constructor plus
`init`, randomness made explicit), the gap satisfies
`round(width * s + typeConfig.minGap * gapCoefficient) ≤ gap` and
`gap ≤ round(1.5 *` that lower bound`)`, where `width` is the obstacle's
grouped width `typeConfig.width * size`. -/
theorem claim_C1_obstacle_gap_bounds (type : ObstacleType) (dimWidth : ℤ)
    (gapCoefficient speed rSize rGap : ℚ)
    (hw : 0 ≤ type.width) (hm : 0 ≤ type.minGap)
    (hs : 0 ≤ speed) (hgc : 0 ≤ gapCoefficient)
    (hr0 : 0 ≤ rGap) (hr1 : rGap < 1) (hs0 : 0 ≤ rSize) (hs1 : rSize < 1) :
    jsRound (((Obstacle.spawn type dimWidth gapCoefficient speed rSize rGap).width : ℚ)
        * speed + (type.minGap : ℚ) * gapCoefficient) ≤
      (Obstacle.spawn type dimWidth gapCoefficient speed rSize rGap).gap ∧
    (Obstacle.spawn type dimWidth gapCoefficient speed rSize rGap).gap ≤
      jsRound ((jsRound (((Obstacle.spawn type dimWidth gapCoefficient speed rSize rGap).width : ℚ)
        * speed + (type.minGap : ℚ) * gapCoefficient) : ℚ) * (3/2)) := by
  have hwid := Obstacle.spawn_width_nonneg type dimWidth gapCoefficient speed rSize rGap hs0 hs1 hw
  have hgapeq : (Obstacle.spawn type dimWidth gapCoefficient speed rSize rGap).gap =
      Obstacle.getGap type (Obstacle.spawn type dimWidth gapCoefficient speed rSize rGap).width
        gapCoefficient speed rGap := by
    simp only [Obstacle.spawn]
  set w := (Obstacle.spawn type dimWidth gapCoefficient speed rSize rGap).width with hwdef
  set minGap := jsRound ((w : ℚ) * speed + (type.minGap : ℚ) * gapCoefficient) with hmin
  have hmin_nonneg : 0 ≤ minGap := by
    apply jsRound_nonneg
    have h1 : (0 : ℚ) ≤ (w : ℚ) * speed :=
      mul_nonneg (by exact_mod_cast hwid) hs
    have h2 : (0 : ℚ) ≤ (type.minGap : ℚ) * gapCoefficient :=
      mul_nonneg (by exact_mod_cast hm) hgc
    linarith
  have hmaxge : minGap ≤ jsRound ((minGap : ℚ) * (3/2)) :=
    le_jsRound_three_halves minGap hmin_nonneg
  rw [hgapeq]
  unfold Obstacle.getGap
  rw [Obstacle.MAX_GAP_COEFFICIENT]
  constructor
  · exact getRandomNum_ge _ _ rGap hr0 hmaxge
  · exact getRandomNum_le _ _ rGap hr1 hmaxge

/-- Witness for C1 at a concrete input: the small cactus at speed 6 with
`gapCoefficient` 0.6 and random draws 1/2 (size) and 1/2 (gap). -/
theorem claim_C1_obstacle_gap_bounds_witness :
    jsRound (((Obstacle.spawn cactusSmall 600 (3/5) 6 (1/2) (1/2)).width : ℚ)
        * 6 + ((cactusSmall.minGap : ℚ)) * (3/5)) ≤
      (Obstacle.spawn cactusSmall 600 (3/5) 6 (1/2) (1/2)).gap ∧
    (Obstacle.spawn cactusSmall 600 (3/5) 6 (1/2) (1/2)).gap ≤
      jsRound ((jsRound (((Obstacle.spawn cactusSmall 600 (3/5) 6 (1/2) (1/2)).width : ℚ)
        * 6 + ((cactusSmall.minGap : ℚ)) * (3/5)) : ℚ) * (3/2)) :=
  claim_C1_obstacle_gap_bounds cactusSmall 600 (3/5) 6 (1/2) (1/2)
    (by norm_num [cactusSmall]) (by norm_num [cactusSmall]) (by norm_num) (by norm_num)
    (by norm_num) (by norm_num) (by norm_num) (by norm_num)

/-- C6.  For every obstacle constructed at speed `s`, its size lies in
`[1, 3]`; and whenever `s` is below the type's multiple-speed threshold,
the size is 1 regardless of the random draw. -/
theorem claim_C6_obstacle_size (type : ObstacleType) (dimWidth : ℤ)
    (gapCoefficient speed rSize rGap : ℚ) (h0 : 0 ≤ rSize) (h1 : rSize < 1) :
    (1 ≤ (Obstacle.spawn type dimWidth gapCoefficient speed rSize rGap).size ∧
      (Obstacle.spawn type dimWidth gapCoefficient speed rSize rGap).size ≤ 3) ∧
    (speed < (type.multipleSpeed : ℚ) →
      (Obstacle.spawn type dimWidth gapCoefficient speed rSize rGap).size = 1) := by
  refine ⟨Obstacle.spawn_size_bounds type dimWidth gapCoefficient speed rSize rGap h0 h1, ?_⟩
  intro hlt
  have hlo := getRandomNum_ge 1 3 rSize h0 (by norm_num)
  simp only [Obstacle.spawn, Obstacle.MAX_OBSTACLE_LENGTH]
  split
  · rfl
  · next hcond =>
    push_neg at hcond
    have hle : getRandomNum 1 3 rSize ≤ 1 := by
      by_contra hgt
      push_neg at hgt
      exact absurd hlt (not_lt.mpr (hcond hgt))
    omega

/-- Witness for C6: the large cactus (threshold 6) at speed 4 with size
draw 9/10, which alone would give size 3; the spawned size is forced to 1. -/
theorem claim_C6_obstacle_size_witness :
    ((1 ≤ (Obstacle.spawn cactusLarge 600 (3/5) 4 (9/10) (1/2)).size ∧
      (Obstacle.spawn cactusLarge 600 (3/5) 4 (9/10) (1/2)).size ≤ 3) ∧
    ((4 : ℚ) < (cactusLarge.multipleSpeed : ℚ) →
      (Obstacle.spawn cactusLarge 600 (3/5) 4 (9/10) (1/2)).size = 1)) :=
  claim_C6_obstacle_size cactusLarge 600 (3/5) 4 (9/10) (1/2) (by norm_num) (by norm_num)

/-- C9, counterexample.  The claim asserts a newly constructed obstacle
spawns fully off-screen to the right (no part inside `[0, screenWidth)`).
A small cactus spawned at the default 600-pixel width gets
`xPos = 600 - 17 = 583`, so the whole 17-pixel sprite lies inside the
game area: its span `[583, 600)` intersects `[0, 600)`. -/
theorem claim_C9_counterexample :
    (Obstacle.spawn cactusSmall 600 (3/5) 6 0 0).xPos = 583 ∧
    (Obstacle.spawn cactusSmall 600 (3/5) 6 0 0).width = 17 ∧
    ¬ ((Obstacle.spawn cactusSmall 600 (3/5) 6 0 0).xPos +
        (Obstacle.spawn cactusSmall 600 (3/5) 6 0 0).width ≤ 0 ∨
       600 ≤ (Obstacle.spawn cactusSmall 600 (3/5) 6 0 0).xPos) := by
  have h : getRandomNum 1 3 (0 : ℚ) = 1 := by
    norm_num [getRandomNum, jsFloor]
  refine ⟨?_, ?_, ?_⟩ <;>
    simp only [Obstacle.spawn, Obstacle.MAX_OBSTACLE_LENGTH, h, cactusSmall] <;>
    norm_num

/-- C9, amended.  Every newly constructed obstacle has initial
`xPos = screenWidth - width` (where `width = typeConfig.width * size`);
at that position its right edge `xPos + width` coincides exactly with the
right screen edge, i.e. it spawns fully on-screen flush against the right
boundary rather than off-screen. -/
theorem claim_C9_spawn_flush_right (type : ObstacleType) (dimWidth : ℤ)
    (gapCoefficient speed rSize rGap : ℚ) :
    (Obstacle.spawn type dimWidth gapCoefficient speed rSize rGap).xPos =
      dimWidth - (Obstacle.spawn type dimWidth gapCoefficient speed rSize rGap).width ∧
    (Obstacle.spawn type dimWidth gapCoefficient speed rSize rGap).xPos +
      (Obstacle.spawn type dimWidth gapCoefficient speed rSize rGap).width = dimWidth := by
  constructor <;> (simp only [Obstacle.spawn]; try ring)

/-! ### Trex: the actor's physics and animation-state machine -/

/-- `Trex.status` animation states. -/
inductive TrexStatus where
  | WAITING
  | RUNNING
  | JUMPING
  | CRASHED
  deriving DecidableEq, Repr

namespace Trex

/-- `Trex.config.DROP_VELOCITY`. -/
def DROP_VELOCITY : ℚ := -5

/-- `Trex.config.GRAVITY`. -/
def GRAVITY : ℚ := 3/5

/-- `Trex.config.HEIGHT`. -/
def HEIGHT : ℤ := 47

/-- `Trex.config.INIITAL_JUMP_VELOCITY` (the source misspells the name). -/
def INIITAL_JUMP_VELOCITY : ℚ := -10

/-- `Trex.config.MAX_JUMP_HEIGHT`. -/
def MAX_JUMP_HEIGHT : ℤ := 30

/-- `Trex.config.MIN_JUMP_HEIGHT`. -/
def MIN_JUMP_HEIGHT : ℤ := 30

/-- `Trex.config.SPEED_DROP_COEFFICIENT`. -/
def SPEED_DROP_COEFFICIENT : ℚ := 3

/-- `Trex.config.WIDTH`. -/
def WIDTH : ℤ := 44

/-- `Trex.animFrames[status].msPerFrame`. -/
def animMsPerFrame : TrexStatus → ℚ
  | TrexStatus.WAITING => 1000/3
  | TrexStatus.RUNNING => 1000/12
  | TrexStatus.CRASHED => 1000/60
  | TrexStatus.JUMPING => 1000/60

/-- `Trex.collisionBoxes`, the actor's fixed sub-box set. -/
def collisionBoxes : List CollisionBox :=
  [⟨1, -1, 30, 26⟩, ⟨32, 0, 8, 16⟩, ⟨10, 35, 14, 8⟩,
   ⟨1, 24, 29, 5⟩, ⟨5, 30, 21, 4⟩, ⟨9, 34, 15, 4⟩]

end Trex

/-- Mutable state of the `Trex` instance (the physics and state-machine
fields; canvas, sprite and blink-animation fields are rendering-only). -/
structure TrexState where
  xPos : ℤ
  yPos : ℤ
  groundYPos : ℤ
  minJumpHeight : ℤ
  status : TrexStatus
  jumping : Bool
  jumpVelocity : ℚ
  reachedMinHeight : Bool
  speedDrop : Bool
  jumpCount : ℕ
  deriving DecidableEq, Repr

namespace Trex

/-- `Trex.prototype.update(deltaTime, opt_status)` with a status argument:
the state-machine part (frame list and timer are animation-only and do not
feed back into physics). -/
def updateStatus (status : TrexStatus) (t : TrexState) : TrexState :=
  { t with status := status }

/-- `Trex.prototype.reset()`: back on the ground, running. -/
def reset (t : TrexState) : TrexState :=
  { t with yPos := t.groundYPos
           jumpVelocity := 0
           jumping := false
           status := TrexStatus.RUNNING
           speedDrop := false
           jumpCount := 0 }

/-- `Trex.prototype.startJump()`. -/
def startJump (t : TrexState) : TrexState :=
  if ¬ t.jumping then
    { t with status := TrexStatus.JUMPING
             jumpVelocity := INIITAL_JUMP_VELOCITY
             jumping := true
             reachedMinHeight := false
             speedDrop := false }
  else t

/-- `Trex.prototype.endJump()`: clamp the upward velocity to
`DROP_VELOCITY` once the minimum height has been reached. -/
def endJump (t : TrexState) : TrexState :=
  if t.reachedMinHeight ∧ t.jumpVelocity < DROP_VELOCITY then
    { t with jumpVelocity := DROP_VELOCITY }
  else t

/-- `Trex.prototype.setSpeedDrop()`. -/
def setSpeedDrop (t : TrexState) : TrexState :=
  { t with speedDrop := true, jumpVelocity := 1 }

/-- `framesElapsed = deltaTime / msPerFrame` at the top of `updateJump`. -/
def framesElapsed (deltaTime : ℚ) (t : TrexState) : ℚ :=
  deltaTime / animMsPerFrame t.status

/-- The `yPos` value after the displacement step of `updateJump`
(`this.yPos += Math.round(...)`, with the speed-drop coefficient applied
when speed-drop is active). -/
def jumpDisplacedY (deltaTime : ℚ) (t : TrexState) : ℤ :=
  t.yPos +
    (if t.speedDrop then
      jsRound (t.jumpVelocity * SPEED_DROP_COEFFICIENT * framesElapsed deltaTime t)
     else jsRound (t.jumpVelocity * framesElapsed deltaTime t))

/-- The `jumpVelocity` value after the gravity step of `updateJump`
(`this.jumpVelocity += this.config.GRAVITY * framesElapsed`). -/
def jumpNewVelocity (deltaTime : ℚ) (t : TrexState) : ℚ :=
  t.jumpVelocity + GRAVITY * framesElapsed deltaTime t

/-- `Trex.prototype.updateJump(deltaTime)`: one frame of jump physics.
Steps in source order: vertical displacement (tripled under speed-drop),
gravity, the minimum-height latch, the maximum-height / speed-drop clamp
via `endJump`, and jump completion when the ground is passed (`reset`
followed by `jumpCount++`).  The trailing `this.update(deltaTime)` call
only advances the animation frame. -/
def updateJump (deltaTime : ℚ) (t : TrexState) : TrexState :=
  let y1 := jumpDisplacedY deltaTime t
  let v1 := jumpNewVelocity deltaTime t
  let t1 := { t with yPos := y1, jumpVelocity := v1 }
  let t2 := if y1 < t.minJumpHeight ∨ t.speedDrop then
              { t1 with reachedMinHeight := true } else t1
  let t3 := if y1 < MAX_JUMP_HEIGHT ∨ t.speedDrop then endJump t2 else t2
  if y1 > t.groundYPos then
    let t4 := reset t3
    { t4 with jumpCount := t4.jumpCount + 1 }
  else t3

end Trex

/-- The per-frame actor step performed by `Runner.prototype.update`:
`updateJump` runs only while `tRex.jumping` (the later
`tRex.update(deltaTime)` call is animation-only). -/
def runnerTrexFrame (deltaTime : ℚ) (t : TrexState) : TrexState :=
  if t.jumping then Trex.updateJump deltaTime t else t

/-- C3, counterexample.  The claim asserts the ascent is force-ended
whenever `y` rises above `groundY - MAX_JUMP_HEIGHT` (or speed-drop is
active).  Take a jumping actor at `yPos = 48` with `jumpVelocity = -8`
(min height reached, no speed-drop, ground at 93) and a one-frame delta
time.  After the update `yPos = 40`, which is above
`groundY - MAX_JUMP_HEIGHT = 63`, `reachedMinHeight` holds, and the
velocity `-37/5` is still faster upward than `DROP_VELOCITY = -5`; yet
the code leaves it unclamped, because its trigger compares `yPos` with
the absolute coordinate `MAX_JUMP_HEIGHT = 30`, not with
`groundY - MAX_JUMP_HEIGHT`. -/
theorem claim_C3_counterexample :
    (Trex.updateJump (1000/60)
      { xPos := 50, yPos := 48, groundYPos := 93, minJumpHeight := 63,
        status := TrexStatus.JUMPING, jumping := true, jumpVelocity := -8,
        reachedMinHeight := true, speedDrop := false, jumpCount := 0 }).yPos = 40 ∧
    ((40 : ℤ) < 93 - Trex.MAX_JUMP_HEIGHT) ∧
    (Trex.updateJump (1000/60)
      { xPos := 50, yPos := 48, groundYPos := 93, minJumpHeight := 63,
        status := TrexStatus.JUMPING, jumping := true, jumpVelocity := -8,
        reachedMinHeight := true, speedDrop := false, jumpCount := 0 }).reachedMinHeight = true ∧
    (Trex.updateJump (1000/60)
      { xPos := 50, yPos := 48, groundYPos := 93, minJumpHeight := 63,
        status := TrexStatus.JUMPING, jumping := true, jumpVelocity := -8,
        reachedMinHeight := true, speedDrop := false, jumpCount := 0 }).jumpVelocity = -37/5 ∧
    (-37/5 : ℚ) < Trex.DROP_VELOCITY ∧ (-37/5 : ℚ) ≠ Trex.DROP_VELOCITY := by
  norm_num [Trex.updateJump, Trex.jumpDisplacedY, Trex.jumpNewVelocity,
    Trex.framesElapsed, Trex.animMsPerFrame, Trex.endJump, Trex.reset,
    Trex.MAX_JUMP_HEIGHT, Trex.DROP_VELOCITY, Trex.GRAVITY,
    Trex.SPEED_DROP_COEFFICIENT, jsRound]

/-- C3, amended.  During a jump update, whenever the displaced `y`
position rises above the absolute coordinate `MAX_JUMP_HEIGHT` (i.e.
`yPos < MAX_JUMP_HEIGHT = 30`, measured from the top of the canvas, not
`groundY - MAX_JUMP_HEIGHT`), or speed-drop is active, the ascent is
force-ended: provided the minimum-height latch holds after this frame's
min-height step, `jumpVelocity` is clamped to `DROP_VELOCITY` if it is
not already falling faster (`jumpVelocity < DROP_VELOCITY` after
gravity), as long as the jump does not simultaneously complete. -/
theorem claim_C3_force_end_clamp (d : ℚ) (t : TrexState)
    (hmax : Trex.jumpDisplacedY d t < Trex.MAX_JUMP_HEIGHT ∨ t.speedDrop = true)
    (hmin : t.reachedMinHeight = true ∨ Trex.jumpDisplacedY d t < t.minJumpHeight ∨
      t.speedDrop = true)
    (hv : Trex.jumpNewVelocity d t < Trex.DROP_VELOCITY)
    (hg : Trex.jumpDisplacedY d t ≤ t.groundYPos) :
    (Trex.updateJump d t).jumpVelocity = Trex.DROP_VELOCITY := by
  have hc3 : ¬ Trex.jumpDisplacedY d t > t.groundYPos := not_lt.mpr hg
  by_cases hc1 : Trex.jumpDisplacedY d t < t.minJumpHeight ∨ t.speedDrop = true
  · simp [Trex.updateJump, Trex.endJump, hc3, hc1, hmax, hv]
  · have hrm : t.reachedMinHeight = true := by tauto
    simp [Trex.updateJump, Trex.endJump, hc3, hc1, hmax, hv, hrm]

/-- Witness for C3 (amended) at a concrete input: a jumping actor at
`yPos = 30` moving up at velocity -8 ends up at `yPos = 22 < 30`, and its
velocity is clamped to `DROP_VELOCITY`. -/
theorem claim_C3_force_end_clamp_witness :
    (Trex.updateJump (1000/60)
      { xPos := 50, yPos := 30, groundYPos := 93, minJumpHeight := 63,
        status := TrexStatus.JUMPING, jumping := true, jumpVelocity := -8,
        reachedMinHeight := true, speedDrop := false, jumpCount := 0 }).jumpVelocity =
      Trex.DROP_VELOCITY :=
  claim_C3_force_end_clamp (1000/60) _
    (by norm_num [Trex.jumpDisplacedY, Trex.framesElapsed, Trex.animMsPerFrame,
      Trex.MAX_JUMP_HEIGHT, jsRound])
    (by norm_num)
    (by norm_num [Trex.jumpNewVelocity, Trex.framesElapsed, Trex.animMsPerFrame,
      Trex.GRAVITY, Trex.DROP_VELOCITY])
    (by norm_num [Trex.jumpDisplacedY, Trex.framesElapsed, Trex.animMsPerFrame, jsRound])

/-- C4, counterexample.  The claim asserts the jump completes when the
update brings `y` *to or past* `groundY`.  A falling actor at `yPos = 90`
with velocity 3 lands exactly at `yPos = 93 = groundYPos` in one frame;
since the code tests the strict `this.yPos > this.groundYPos`, the jump
does not complete: `jumping` stays true, the velocity is not reset, the
status stays `JUMPING` and `jumpCount` is unchanged. -/
theorem claim_C4_counterexample :
    (Trex.updateJump (1000/60)
      { xPos := 50, yPos := 90, groundYPos := 93, minJumpHeight := 63,
        status := TrexStatus.JUMPING, jumping := true, jumpVelocity := 3,
        reachedMinHeight := true, speedDrop := false, jumpCount := 0 }).yPos = 93 ∧
    (Trex.updateJump (1000/60)
      { xPos := 50, yPos := 90, groundYPos := 93, minJumpHeight := 63,
        status := TrexStatus.JUMPING, jumping := true, jumpVelocity := 3,
        reachedMinHeight := true, speedDrop := false, jumpCount := 0 }).jumping = true ∧
    (Trex.updateJump (1000/60)
      { xPos := 50, yPos := 90, groundYPos := 93, minJumpHeight := 63,
        status := TrexStatus.JUMPING, jumping := true, jumpVelocity := 3,
        reachedMinHeight := true, speedDrop := false, jumpCount := 0 }).jumpVelocity = 18/5 ∧
    (Trex.updateJump (1000/60)
      { xPos := 50, yPos := 90, groundYPos := 93, minJumpHeight := 63,
        status := TrexStatus.JUMPING, jumping := true, jumpVelocity := 3,
        reachedMinHeight := true, speedDrop := false, jumpCount := 0 }).status =
      TrexStatus.JUMPING := by
  norm_num [Trex.updateJump, Trex.jumpDisplacedY, Trex.jumpNewVelocity,
    Trex.framesElapsed, Trex.animMsPerFrame, Trex.endJump, Trex.reset,
    Trex.MAX_JUMP_HEIGHT, Trex.DROP_VELOCITY, Trex.GRAVITY, jsRound]

/-- C4, amended.  When a jump update brings `y` strictly past `groundY`
(`yPos > groundYPos`; landing exactly on `groundY` does not complete the
jump), the jump completes in that update: `y` snaps to `groundY`, the
velocity resets to 0, the state returns to Running with `speedDrop`
cleared, and `jumpCount` becomes exactly 1 (the reset zeroes it before
the increment, so it is not incremented relative to its prior value).
Afterwards the per-frame actor step leaves the completed state unchanged
(`updateJump` is gated on `jumping`). -/
theorem claim_C4_jump_completion (d : ℚ) (t : TrexState)
    (h : t.groundYPos < Trex.jumpDisplacedY d t) :
    (Trex.updateJump d t).yPos = t.groundYPos ∧
    (Trex.updateJump d t).jumpVelocity = 0 ∧
    (Trex.updateJump d t).jumping = false ∧
    (Trex.updateJump d t).status = TrexStatus.RUNNING ∧
    (Trex.updateJump d t).speedDrop = false ∧
    (Trex.updateJump d t).jumpCount = 1 ∧
    (∀ d2 : ℚ, runnerTrexFrame d2 (Trex.updateJump d t) = Trex.updateJump d t) := by
  simp only [Trex.updateJump]
  rw [if_pos h]
  split_ifs <;>
    simp [Trex.reset, Trex.endJump, runnerTrexFrame] <;>
    split_ifs <;>
    simp [runnerTrexFrame]

/-- Witness for C4 (amended): falling at velocity 10 from `yPos = 90`
overshoots the ground (`y` would be 100 > 93), so the jump completes. -/
theorem claim_C4_jump_completion_witness :
    (Trex.updateJump (1000/60)
      { xPos := 50, yPos := 90, groundYPos := 93, minJumpHeight := 63,
        status := TrexStatus.JUMPING, jumping := true, jumpVelocity := 10,
        reachedMinHeight := true, speedDrop := false, jumpCount := 4 }).yPos = 93 ∧
    (Trex.updateJump (1000/60)
      { xPos := 50, yPos := 90, groundYPos := 93, minJumpHeight := 63,
        status := TrexStatus.JUMPING, jumping := true, jumpVelocity := 10,
        reachedMinHeight := true, speedDrop := false, jumpCount := 4 }).jumpCount = 1 := by
  have h := claim_C4_jump_completion (1000/60)
    { xPos := 50, yPos := 90, groundYPos := 93, minJumpHeight := 63,
      status := TrexStatus.JUMPING, jumping := true, jumpVelocity := 10,
      reachedMinHeight := true, speedDrop := false, jumpCount := 4 }
    (by norm_num [Trex.jumpDisplacedY, Trex.framesElapsed, Trex.animMsPerFrame, jsRound])
  exact ⟨h.1, h.2.2.2.2.2.1⟩

/-! ### DistanceMeter: score display and achievement-flash state machine -/

/-- Mutable state of the `DistanceMeter` (the score-tracking fields; the
canvas and sprite-drawing fields are rendering-only).  `digits` holds the
current five digit values, most significant first. -/
structure DistanceMeterState where
  acheivement : Bool
  flashTimer : ℚ
  flashIterations : ℕ
  digits : List ℕ
  deriving DecidableEq, Repr

namespace DistanceMeter

/-- `DistanceMeter.config.MAX_DISTANCE_UNITS`. -/
def MAX_DISTANCE_UNITS : ℕ := 5

/-- `DistanceMeter.config.ACHIEVEMENT_DISTANCE`. -/
def ACHIEVEMENT_DISTANCE : ℤ := 100

/-- `DistanceMeter.config.COEFFICIENT` (0.025). -/
def COEFFICIENT : ℚ := 1/40

/-- `DistanceMeter.config.FLASH_DURATION` (1000 / 4). -/
def FLASH_DURATION : ℚ := 250

/-- `DistanceMeter.config.FLASH_ITERATIONS`. -/
def FLASH_ITERATIONS : ℕ := 3

/-- `DistanceMeter.prototype.getActualDistance(distance)`:
`Math.round(distance * COEFFICIENT)`, and 0 on a falsy (zero) input. -/
def getActualDistance (distance : ℚ) : ℤ :=
  if distance = 0 then 0 else jsRound (distance * COEFFICIENT)

/-- The digit list shown for a positive unit distance:
`('00000' + distance).substr(-MAX_DISTANCE_UNITS)` — the last five
decimal digits, zero-padded on the left. -/
def digitsOf (dist : ℤ) : List ℕ :=
  let n := dist.toNat
  [n / 10000 % 10, n / 1000 % 10, n / 100 % 10, n / 10 % 10, n % 10]

/-- The `'00000'` default digit string. -/
def defaultDigits : List ℕ := [0, 0, 0, 0, 0]

/-- `DistanceMeter.prototype.update(deltaTime, distance)`.  Returns the
new state, the `playSound` flag (the function's return value) and the
`paint` flag (whether the digits were repainted this frame). -/
def update (deltaTime distance : ℚ) (m : DistanceMeterState) :
    DistanceMeterState × Bool × Bool :=
  if ¬ m.acheivement then
    let dist := getActualDistance distance
    if dist > 0 then
      if dist % ACHIEVEMENT_DISTANCE = 0 then
        ({ m with acheivement := true, flashTimer := 0, digits := digitsOf dist },
         true, true)
      else
        ({ m with digits := digitsOf dist }, false, true)
    else
      ({ m with digits := defaultDigits }, false, true)
  else
    if m.flashIterations ≤ FLASH_ITERATIONS then
      let ft := m.flashTimer + deltaTime
      if ft < FLASH_DURATION then
        ({ m with flashTimer := ft }, false, false)
      else if ft > FLASH_DURATION * 2 then
        ({ m with flashTimer := 0, flashIterations := m.flashIterations + 1 },
         false, true)
      else
        ({ m with flashTimer := ft }, false, true)
    else
      ({ m with acheivement := false, flashIterations := 0, flashTimer := 0 },
       false, true)

/-- The state part of one meter update (the flash branch ignores the
distance argument, so it is fixed to 0 when iterating the flash). -/
def step (deltaTime : ℚ) (m : DistanceMeterState) : DistanceMeterState :=
  (update deltaTime 0 m).1

/-- `DistanceMeter.prototype.reset()`: one update with `deltaTime = 0`
and an undefined (falsy) distance, then the achievement flag cleared. -/
def reset (m : DistanceMeterState) : DistanceMeterState :=
  { (update 0 0 m).1 with acheivement := false }

end DistanceMeter

namespace DistanceMeter

/-- The trigger frame: while not flashing, a positive unit distance that
is an exact multiple of `ACHIEVEMENT_DISTANCE` sets the flag, resets the
flash timer (but not the iteration counter) and returns the play-sound
signal. -/
theorem update_trigger (d dist : ℚ) (m : DistanceMeterState)
    (hach : m.acheivement = false)
    (hpos : 0 < getActualDistance dist)
    (hmul : getActualDistance dist % ACHIEVEMENT_DISTANCE = 0) :
    update d dist m =
      ({ m with acheivement := true, flashTimer := 0,
                digits := digitsOf (getActualDistance dist) }, true, true) := by
  simp [update, hach, hpos, hmul]

/-- One flash step with a delta time exceeding a whole on/off cycle
(`> 2 * FLASH_DURATION`) completes one cycle: the timer wraps to 0 and
the iteration counter advances; no sound is emitted and the digits
repaint. -/
theorem update_flash_advance (d : ℚ) (k : ℕ) (dgs : List ℕ)
    (hk : k ≤ 3) (hd : 500 < d) :
    update d 0 ⟨true, 0, k, dgs⟩ = (⟨true, 0, k + 1, dgs⟩, false, true) := by
  have h1 : ¬ (d < FLASH_DURATION) := by
    simp only [FLASH_DURATION]
    intro h
    linarith
  have h2 : FLASH_DURATION * 2 < d := by
    simp only [FLASH_DURATION]
    linarith
  simp [update, FLASH_ITERATIONS, hk, h1, h2]

/-- The flash ends only once the iteration counter has passed
`FLASH_ITERATIONS` (the source guard is `<=`, so the counter must reach
4): that update clears the flag and zeroes the counters. -/
theorem update_flash_clear (d : ℚ) (dgs : List ℕ) :
    update d 0 ⟨true, 0, 4, dgs⟩ = (⟨false, 0, 0, dgs⟩, false, true) := by
  simp [update, FLASH_ITERATIONS]

end DistanceMeter

/-- C2, counterexample.  The claim asserts the flag clears after exactly
`FLASH_ITERATIONS = 3` full on/off cycles.  Start a fresh meter, feed a
pixel distance of 4000 (unit score 100, a positive multiple of
`ACHIEVEMENT_DISTANCE`) to trigger the flash, then run 4 updates whose
delta time 600 each exceeds a full cycle (`2 * FLASH_DURATION = 500`).
After 4 completed cycles the flag is still set (the guard is
`flashIterations <= FLASH_ITERATIONS`, so a 4th cycle runs); the claim
requires it to have cleared after 3. -/
theorem claim_C2_counterexample :
    (DistanceMeter.update 600 4000 ⟨false, 0, 0, DistanceMeter.defaultDigits⟩).2.1 = true ∧
    (DistanceMeter.step 600 (DistanceMeter.step 600 (DistanceMeter.step 600
      (DistanceMeter.step 600
        (DistanceMeter.update 600 4000
          ⟨false, 0, 0, DistanceMeter.defaultDigits⟩).1)))).flashIterations = 4 ∧
    (DistanceMeter.step 600 (DistanceMeter.step 600 (DistanceMeter.step 600
      (DistanceMeter.step 600
        (DistanceMeter.update 600 4000
          ⟨false, 0, 0, DistanceMeter.defaultDigits⟩).1)))).acheivement = true := by
  have htrig : DistanceMeter.update 600 4000 ⟨false, 0, 0, DistanceMeter.defaultDigits⟩ =
      (⟨true, 0, 0, DistanceMeter.digitsOf 100⟩, true, true) := by
    have h100 : DistanceMeter.getActualDistance 4000 = 100 := by
      norm_num [DistanceMeter.getActualDistance, DistanceMeter.COEFFICIENT, jsRound]
    have := DistanceMeter.update_trigger 600 4000 ⟨false, 0, 0, DistanceMeter.defaultDigits⟩
      rfl (by rw [h100]; norm_num) (by rw [h100]; norm_num [DistanceMeter.ACHIEVEMENT_DISTANCE])
    simpa [h100] using this
  have hstep : ∀ k : ℕ, k ≤ 3 →
      DistanceMeter.step 600 ⟨true, 0, k, DistanceMeter.digitsOf 100⟩ =
        ⟨true, 0, k + 1, DistanceMeter.digitsOf 100⟩ := by
    intro k hk
    unfold DistanceMeter.step
    rw [DistanceMeter.update_flash_advance 600 k _ hk (by norm_num)]
  refine ⟨by rw [htrig], ?_, ?_⟩ <;>
    rw [htrig] <;>
    simp only [hstep 0 (by norm_num), hstep 1 (by norm_num),
      hstep 2 (by norm_num), hstep 3 (by norm_num)]

/-- C2, amended.  The achievement flash is a closed state machine: when
the score units become a positive exact multiple of
`ACHIEVEMENT_DISTANCE` while not flashing (iteration counter at 0, its
value in the closed machine), the flag is set, the flash timer is reset
and the play-sound signal is emitted on that frame; thereafter, counting
updates whose delta time exceeds one full on/off cycle
(`> 2 * FLASH_DURATION`), the machine runs `FLASH_ITERATIONS + 1` full
cycles (the guard is `flashIterations <= FLASH_ITERATIONS`) emitting no
further sound, and on the following update clears the flag, resets the
timer and iteration count, and resumes normal digit display. -/
theorem claim_C2_achievement_flash (d dist : ℚ) (m : DistanceMeterState)
    (hach : m.acheivement = false) (hit : m.flashIterations = 0)
    (hpos : 0 < DistanceMeter.getActualDistance dist)
    (hmul : DistanceMeter.getActualDistance dist % DistanceMeter.ACHIEVEMENT_DISTANCE = 0)
    (hd : DistanceMeter.FLASH_DURATION * 2 < d) :
    DistanceMeter.update d dist m =
      (⟨true, 0, 0, DistanceMeter.digitsOf (DistanceMeter.getActualDistance dist)⟩,
       true, true) ∧
    (∀ k : ℕ, k ≤ DistanceMeter.FLASH_ITERATIONS + 1 →
      (DistanceMeter.step d)^[k]
          ⟨true, 0, 0, DistanceMeter.digitsOf (DistanceMeter.getActualDistance dist)⟩ =
        ⟨true, 0, k, DistanceMeter.digitsOf (DistanceMeter.getActualDistance dist)⟩ ∧
      (DistanceMeter.update d 0
          ⟨true, 0, k, DistanceMeter.digitsOf (DistanceMeter.getActualDistance dist)⟩).2.1 =
        false) ∧
    (DistanceMeter.step d)^[DistanceMeter.FLASH_ITERATIONS + 2]
        ⟨true, 0, 0, DistanceMeter.digitsOf (DistanceMeter.getActualDistance dist)⟩ =
      ⟨false, 0, 0, DistanceMeter.digitsOf (DistanceMeter.getActualDistance dist)⟩ ∧
    (DistanceMeter.update d 0
        ⟨true, 0, DistanceMeter.FLASH_ITERATIONS + 1,
          DistanceMeter.digitsOf (DistanceMeter.getActualDistance dist)⟩).2.2 = true := by
  have h500 : (500 : ℚ) < d := by
    have : DistanceMeter.FLASH_DURATION * 2 = 500 := by
      norm_num [DistanceMeter.FLASH_DURATION]
    linarith [hd, this.symm.le]
  set dgs := DistanceMeter.digitsOf (DistanceMeter.getActualDistance dist) with hdgs
  have htrig : DistanceMeter.update d dist m = (⟨true, 0, 0, dgs⟩, true, true) := by
    rw [DistanceMeter.update_trigger d dist m hach hpos hmul]
    obtain ⟨a, ft, fi, dg⟩ := m
    simp only at hach hit
    simp [hach, hit]
  have hiter : ∀ k : ℕ, k ≤ 4 →
      (DistanceMeter.step d)^[k] ⟨true, 0, 0, dgs⟩ = ⟨true, 0, k, dgs⟩ := by
    intro k hk
    induction k with
    | zero => rfl
    | succ n ih =>
      rw [Function.iterate_succ_apply', ih (by omega)]
      unfold DistanceMeter.step
      rw [DistanceMeter.update_flash_advance d n dgs (by omega) h500]
  refine ⟨htrig, ?_, ?_, ?_⟩
  · intro k hk
    have hk4 : k ≤ 4 := by
      simpa [DistanceMeter.FLASH_ITERATIONS] using hk
    refine ⟨hiter k hk4, ?_⟩
    by_cases hk3 : k ≤ 3
    · rw [DistanceMeter.update_flash_advance d k dgs hk3 h500]
    · have : k = 4 := by omega
      rw [this, DistanceMeter.update_flash_clear d dgs]
  · have h5 : DistanceMeter.FLASH_ITERATIONS + 2 = 4 + 1 := by
      norm_num [DistanceMeter.FLASH_ITERATIONS]
    rw [h5, Function.iterate_succ_apply', hiter 4 (by norm_num)]
    unfold DistanceMeter.step
    rw [DistanceMeter.update_flash_clear d dgs]
  · have h4 : DistanceMeter.FLASH_ITERATIONS + 1 = 4 := by
      norm_num [DistanceMeter.FLASH_ITERATIONS]
    rw [h4, DistanceMeter.update_flash_clear d dgs]

/-- Witness for C2 (amended): a fresh meter fed pixel distance 4000
(unit score 100) with per-update delta time 600. -/
theorem claim_C2_achievement_flash_witness :
    DistanceMeter.update 600 4000 ⟨false, 0, 0, DistanceMeter.defaultDigits⟩ =
      (⟨true, 0, 0, DistanceMeter.digitsOf (DistanceMeter.getActualDistance 4000)⟩,
       true, true) ∧
    (∀ k : ℕ, k ≤ DistanceMeter.FLASH_ITERATIONS + 1 →
      (DistanceMeter.step 600)^[k]
          ⟨true, 0, 0, DistanceMeter.digitsOf (DistanceMeter.getActualDistance 4000)⟩ =
        ⟨true, 0, k, DistanceMeter.digitsOf (DistanceMeter.getActualDistance 4000)⟩ ∧
      (DistanceMeter.update 600 0
          ⟨true, 0, k, DistanceMeter.digitsOf (DistanceMeter.getActualDistance 4000)⟩).2.1 =
        false) ∧
    (DistanceMeter.step 600)^[DistanceMeter.FLASH_ITERATIONS + 2]
        ⟨true, 0, 0, DistanceMeter.digitsOf (DistanceMeter.getActualDistance 4000)⟩ =
      ⟨false, 0, 0, DistanceMeter.digitsOf (DistanceMeter.getActualDistance 4000)⟩ ∧
    (DistanceMeter.update 600 0
        ⟨true, 0, DistanceMeter.FLASH_ITERATIONS + 1,
          DistanceMeter.digitsOf (DistanceMeter.getActualDistance 4000)⟩).2.2 = true :=
  claim_C2_achievement_flash 600 4000 ⟨false, 0, 0, DistanceMeter.defaultDigits⟩
    rfl rfl
    (by norm_num [DistanceMeter.getActualDistance, DistanceMeter.COEFFICIENT, jsRound])
    (by norm_num [DistanceMeter.getActualDistance, DistanceMeter.COEFFICIENT,
      DistanceMeter.ACHIEVEMENT_DISTANCE, jsRound])
    (by norm_num [DistanceMeter.FLASH_DURATION])

/-! ### Collision detection (two-phase check) -/

/-- `boxCompare(tRexBox, obstacleBox)`: the axis-aligned bounding-box
overlap test, strict inequalities throughout. -/
def boxCompare (tRexBox obstacleBox : CollisionBox) : Bool :=
  tRexBox.x < obstacleBox.x + obstacleBox.width ∧
  tRexBox.x + tRexBox.width > obstacleBox.x ∧
  tRexBox.y < obstacleBox.y + obstacleBox.height ∧
  tRexBox.height + tRexBox.y > obstacleBox.y

/-- `createAdjustedCollisionBox(box, adjustment)`: translate a sub-box by
its owner's coarse-box origin. -/
def createAdjustedCollisionBox (box adjustment : CollisionBox) : CollisionBox :=
  { x := box.x + adjustment.x
    y := box.y + adjustment.y
    width := box.width
    height := box.height }

/-- The actor's coarse bounding box built in `checkForCollision`
(trimmed by 1 unit on every side for the sprite's white border). -/
def tRexCoarseBox (t : TrexState) : CollisionBox :=
  { x := t.xPos + 1, y := t.yPos + 1, width := Trex.WIDTH - 2, height := Trex.HEIGHT - 2 }

/-- The obstacle's coarse bounding box built in `checkForCollision`. -/
def obstacleCoarseBox (o : Obstacle) : CollisionBox :=
  { x := o.xPos + 1, y := o.yPos + 1,
    width := o.typeConfig.width * o.size - 2, height := o.typeConfig.height - 2 }

/-- The fine phase of `checkForCollision`: the nested loop over the
actor's sub-boxes (outer) and the obstacle's sub-boxes (inner), each
translated by its owner's coarse-box origin; the first overlapping pair
is returned. -/
def finePhase (tRexBoxes obstacleBoxes : List CollisionBox)
    (tRexBox obstacleBox : CollisionBox) : Option (CollisionBox × CollisionBox) :=
  tRexBoxes.findSome? fun tbox =>
    obstacleBoxes.findSome? fun obox =>
      let adjTrexBox := createAdjustedCollisionBox tbox tRexBox
      let adjObstacleBox := createAdjustedCollisionBox obox obstacleBox
      if boxCompare adjTrexBox adjObstacleBox then some (adjTrexBox, adjObstacleBox)
      else none

/-- `checkForCollision(obstacle, tRex)`: the coarse outer-bounds check,
then (only on overlap) the fine per-sub-box phase.  `none` is the
source's `false` return (no collision). -/
def checkForCollision (o : Obstacle) (t : TrexState) :
    Option (CollisionBox × CollisionBox) :=
  if boxCompare (tRexCoarseBox t) (obstacleCoarseBox o) then
    finePhase Trex.collisionBoxes o.collisionBoxes (tRexCoarseBox t) (obstacleCoarseBox o)
  else none

/-- C7.  `checkForCollision` is sound in its coarse phase: whenever the
trimmed coarse boxes of actor and obstacle do not AABB-overlap, the fine
phase is never entered (by definition `finePhase` is only invoked under
the coarse test) and the result is the no-collision value `none`. -/
theorem claim_C7_coarse_phase_sound (o : Obstacle) (t : TrexState)
    (h : boxCompare (tRexCoarseBox t) (obstacleCoarseBox o) = false) :
    checkForCollision o t = none := by
  simp [checkForCollision, h]

/-- Witness for C7: an actor on the ground at `x = 50` and a freshly
spawned small cactus at `x = 583`; the coarse boxes are far apart and the
check reports no collision. -/
theorem claim_C7_coarse_phase_sound_witness :
    checkForCollision (Obstacle.spawn cactusSmall 600 (3/5) 6 0 0)
      { xPos := 50, yPos := 93, groundYPos := 93, minJumpHeight := 63,
        status := TrexStatus.RUNNING, jumping := false, jumpVelocity := 0,
        reachedMinHeight := false, speedDrop := false, jumpCount := 0 } = none :=
  claim_C7_coarse_phase_sound _ _
    (by
      have h : getRandomNum 1 3 (0 : ℚ) = 1 := by
        norm_num [getRandomNum, jsFloor]
      simp only [boxCompare, tRexCoarseBox, obstacleCoarseBox, Obstacle.spawn,
        Obstacle.MAX_OBSTACLE_LENGTH, h, cactusSmall, Trex.WIDTH, Trex.HEIGHT]
      norm_num)

/-! ### Horizon: per-frame obstacle list update and spawn scheduling -/

namespace Horizon

/-- The movement-and-cleanup phase of `Horizon.prototype.updateObstacles`:
every obstacle is advanced by `Obstacle.update`; then, for each obstacle
whose `remove` flag is set after its update, one `shift()` is performed on
a copy of the list — i.e. the first `k` elements are dropped, where `k`
is the number of removed obstacles (the source's positional-removal
quirk). -/
def cleanupShift (deltaTime speed : ℚ) (obstacles : List Obstacle) : List Obstacle :=
  let updated := obstacles.map (Obstacle.update deltaTime speed)
  updated.drop (updated.filter (fun o => o.remove)).length

/-- `Horizon.prototype.addNewObstacle(currentSpeed)`: a uniformly random
catalog entry (draw `rType`) is instantiated at the right edge. -/
def addNewObstacle (dimWidth : ℤ) (gapCoefficient speed rType rSize rGap : ℚ) :
    Obstacle :=
  let obstacleTypeIndex := getRandomNum 0 ((obstacleTypes.length : ℤ) - 1) rType
  Obstacle.spawn (obstacleTypes.getD obstacleTypeIndex.toNat cactusSmall)
    dimWidth gapCoefficient speed rSize rGap

/-- `Horizon.prototype.updateObstacles(deltaTime, currentSpeed)`: move
and clean up the list, then make the spawn decision — if the list is
empty a new obstacle is created unconditionally; otherwise the most
recently spawned obstacle is inspected, and a follower is created (and
the inspected obstacle's flag set) exactly when it has not yet created a
follower, is visible, and `xPos + width + gap < dimensions.WIDTH`. -/
def updateObstacles (deltaTime speed : ℚ) (dimWidth : ℤ)
    (gapCoefficient rType rSize rGap : ℚ) (obstacles : List Obstacle) :
    List Obstacle :=
  let obs2 := cleanupShift deltaTime speed obstacles
  match obs2.getLast? with
  | some lastObstacle =>
      if ¬ lastObstacle.followingObstacleCreated ∧ lastObstacle.isVisible ∧
          lastObstacle.xPos + lastObstacle.width + lastObstacle.gap < dimWidth then
        obs2.dropLast ++
          [{ lastObstacle with followingObstacleCreated := true },
           addNewObstacle dimWidth gapCoefficient speed rType rSize rGap]
      else obs2
  | none => [addNewObstacle dimWidth gapCoefficient speed rType rSize rGap]

end Horizon

/-- C5.  In a per-frame obstacle update whose post-cleanup list is
non-empty (so the spawn decision inspects `last`, the most recently
spawned obstacle): at most one new obstacle is created; one is created
exactly when `last` has not yet created a follower, is visible, and
satisfies `xPos + width + gap < screenWidth`; in that case `last`'s
follower flag is set in the resulting list (so, the flag being preserved
by `Obstacle.update`, the same obstacle never schedules a second follower
on a later frame). -/
theorem claim_C5_spawn_policy (deltaTime speed : ℚ) (dimWidth : ℤ)
    (gapCoefficient rType rSize rGap : ℚ) (obstacles : List Obstacle)
    (lastObstacle : Obstacle)
    (hlast : (Horizon.cleanupShift deltaTime speed obstacles).getLast? =
      some lastObstacle) :
    ((Horizon.updateObstacles deltaTime speed dimWidth gapCoefficient rType rSize rGap
        obstacles).length ≤
      (Horizon.cleanupShift deltaTime speed obstacles).length + 1) ∧
    ((Horizon.updateObstacles deltaTime speed dimWidth gapCoefficient rType rSize rGap
        obstacles).length =
      (Horizon.cleanupShift deltaTime speed obstacles).length + 1 ↔
      (lastObstacle.followingObstacleCreated = false ∧
       lastObstacle.isVisible = true ∧
       lastObstacle.xPos + lastObstacle.width + lastObstacle.gap < dimWidth)) ∧
    ((lastObstacle.followingObstacleCreated = false ∧
      lastObstacle.isVisible = true ∧
      lastObstacle.xPos + lastObstacle.width + lastObstacle.gap < dimWidth) →
      Horizon.updateObstacles deltaTime speed dimWidth gapCoefficient rType rSize rGap
          obstacles =
        (Horizon.cleanupShift deltaTime speed obstacles).dropLast ++
          [{ lastObstacle with followingObstacleCreated := true },
           Horizon.addNewObstacle dimWidth gapCoefficient speed rType rSize rGap]) ∧
    (∀ o : Obstacle,
      (Obstacle.update deltaTime speed o).followingObstacleCreated =
        o.followingObstacleCreated) := by
  have hne : Horizon.cleanupShift deltaTime speed obstacles ≠ [] := by
    intro h
    rw [h] at hlast
    simp at hlast
  have hlen : 1 ≤ (Horizon.cleanupShift deltaTime speed obstacles).length :=
    List.length_pos.mpr hne
  have hflag : ∀ o : Obstacle,
      (Obstacle.update deltaTime speed o).followingObstacleCreated =
        o.followingObstacleCreated := by
    intro o
    simp only [Obstacle.update]
    split_ifs <;> simp
  simp only [Horizon.updateObstacles, hlast]
  by_cases hcond : ¬ lastObstacle.followingObstacleCreated ∧ lastObstacle.isVisible ∧
      lastObstacle.xPos + lastObstacle.width + lastObstacle.gap < dimWidth
  · rw [if_pos hcond]
    have hsimp : lastObstacle.followingObstacleCreated = false ∧
        lastObstacle.isVisible = true ∧
        lastObstacle.xPos + lastObstacle.width + lastObstacle.gap < dimWidth := by
      obtain ⟨h1, h2, h3⟩ := hcond
      exact ⟨by simpa using h1, by simpa using h2, h3⟩
    refine ⟨?_, ?_, fun _ => rfl, hflag⟩
    · simp only [List.length_append, List.length_dropLast, List.length_cons,
        List.length_nil]
      omega
    · constructor
      · intro _
        exact hsimp
      · intro _
        simp only [List.length_append, List.length_dropLast, List.length_cons,
          List.length_nil]
        omega
  · rw [if_neg hcond]
    refine ⟨by omega, ?_, ?_, hflag⟩
    · constructor
      · intro h
        omega
      · intro h
        exfalso
        apply hcond
        exact ⟨by simp [h.1], by simp [h.2.1], h.2.2⟩
    · intro h
      exfalso
      apply hcond
      exact ⟨by simp [h.1], by simp [h.2.1], h.2.2⟩

/-- Witness for C5: a single small cactus at `xPos = 100` moves to 94 in
one frame at speed 6, survives cleanup, and the update adds at most one
obstacle. -/
theorem claim_C5_spawn_policy_witness :
    (Horizon.updateObstacles (1000/60) 6 600 (3/5) 0 0 0
        [⟨cactusSmall, 3/5, 1, false, 100, 105, 17,
          cactusSmall.collisionBoxes, 100, false⟩]).length ≤
      (Horizon.cleanupShift (1000/60) 6
        [⟨cactusSmall, 3/5, 1, false, 100, 105, 17,
          cactusSmall.collisionBoxes, 100, false⟩]).length + 1 :=
  (claim_C5_spawn_policy (1000/60) 6 600 (3/5) 0 0 0
    [⟨cactusSmall, 3/5, 1, false, 100, 105, 17,
      cactusSmall.collisionBoxes, 100, false⟩]
    ⟨cactusSmall, 3/5, 1, false, 94, 105, 17,
      cactusSmall.collisionBoxes, 100, false⟩
    (by norm_num [Horizon.cleanupShift, Obstacle.update, Obstacle.isVisible,
      jsFloor])).1

/-! ### Runner: orchestrator state, commands and key handlers -/

/-- The DOM event kinds the handlers dispatch on. -/
inductive InputEventType where
  | keydown
  | keyup
  | touchstart
  | touchend
  | mousedown
  | mouseup
  deriving DecidableEq, Repr

/-- Simulation-relevant state of the `Runner` singleton.  Rendering,
audio and DOM fields are omitted; `raqId` is the pending
`requestAnimationFrame` handle (0 when no frame is scheduled). -/
structure RunnerState where
  raqId : ℕ
  time : ℚ
  runningTime : ℚ
  distanceRan : ℚ
  currentSpeed : ℚ
  highestScore : ℚ
  activated : Bool
  crashed : Bool
  paused : Bool
  playCount : ℕ
  dimensionsWidth : ℤ
  obstacles : List Obstacle
  distanceMeter : DistanceMeterState
  tRex : TrexState
  deriving DecidableEq

namespace Runner

/-- `Runner.config.SPEED`. -/
def SPEED : ℚ := 6

/-- `DEFAULT_WIDTH`. -/
def DEFAULT_WIDTH : ℤ := 600

/-- `Runner.config.MOBILE_SPEED_COEFFICIENT`. -/
def MOBILE_SPEED_COEFFICIENT : ℚ := 6/5

/-- `Runner.config.GAMEOVER_CLEAR_TIME`. -/
def GAMEOVER_CLEAR_TIME : ℚ := 750

/-- `Runner.keycodes.JUMP` (up arrow and spacebar). -/
def jumpKeycode (k : ℤ) : Bool := k == 38 || k == 32

/-- `Runner.keycodes.DUCK` (down arrow). -/
def duckKeycode (k : ℤ) : Bool := k == 40

/-- `Runner.keycodes.RESTART` (enter). -/
def restartKeycode (k : ℤ) : Bool := k == 13

/-- `Runner.prototype.setSpeed(opt_speed)` (a zero `opt_speed` is falsy). -/
def setSpeed (optSpeed : ℚ) (s : RunnerState) : RunnerState :=
  let speed := if optSpeed ≠ 0 then optSpeed else s.currentSpeed
  if s.dimensionsWidth < DEFAULT_WIDTH then
    let mobileSpeed := speed * (s.dimensionsWidth : ℚ) / (DEFAULT_WIDTH : ℚ) *
      MOBILE_SPEED_COEFFICIENT
    { s with currentSpeed := if mobileSpeed > speed then speed else mobileSpeed }
  else if optSpeed ≠ 0 then { s with currentSpeed := optSpeed }
  else s

/-- `Runner.prototype.stop()`. -/
def stop (s : RunnerState) : RunnerState :=
  { s with activated := false, paused := true, raqId := 0 }

/-- `Runner.prototype.play()`.  The trailing `this.update()` frame is the
abstract parameter `updFrame`; `now` is the `getTimeStamp()` sample. -/
def play (updFrame : RunnerState → RunnerState) (now : ℚ) (s : RunnerState) :
    RunnerState :=
  if ¬ s.crashed then
    updFrame { s with activated := true, paused := false, time := now,
                      tRex := Trex.updateStatus TrexStatus.RUNNING s.tRex }
  else s

/-- `Runner.prototype.restart()`: guarded by `!this.raqId`; on the stopped
path it resets the run counters and flags, re-seeds the speed, resets the
distance meter, clears the obstacle list (`horizon.reset`), resets the
actor, and triggers one `update()` frame (the abstract `updFrame`). -/
def restart (updFrame : RunnerState → RunnerState) (now : ℚ) (s : RunnerState) :
    RunnerState :=
  if s.raqId = 0 then
    updFrame (setSpeed SPEED
      { s with playCount := s.playCount + 1, runningTime := 0, activated := true,
               crashed := false, distanceRan := 0, time := now,
               distanceMeter := DistanceMeter.reset s.distanceMeter,
               obstacles := [], tRex := Trex.reset s.tRex })
  else s

/-- `Runner.prototype.onKeyDown(e)`: jump start (activating on first
input), restart-on-touch after a crash, and the speed-drop trigger (the
duck key while jumping).  `targetIsDetailsButton` and `targetIsContainer`
stand for the event-target tests. -/
def onKeyDown (updFrame : RunnerState → RunnerState) (now : ℚ) (keyCode : ℤ)
    (evType : InputEventType) (targetIsDetailsButton targetIsContainer : Bool)
    (s : RunnerState) : RunnerState :=
  let s1 :=
    if ¬ targetIsDetailsButton then
      let s2 :=
        if ¬ s.crashed ∧ (jumpKeycode keyCode ∨ evType = InputEventType.touchstart) then
          let sA := { s with activated := true }
          if ¬ sA.tRex.jumping then { sA with tRex := Trex.startJump sA.tRex } else sA
        else s
      if s2.crashed ∧ evType = InputEventType.touchstart ∧ targetIsContainer then
        restart updFrame now s2
      else s2
    else s
  if duckKeycode keyCode ∧ s1.tRex.jumping then
    { s1 with tRex := Trex.setSpeedDrop s1.tRex }
  else s1

/-- `Runner.prototype.onKeyUp(e)`: `endJump` while running, the duck-key
release (which sets `tRex.speedDrop = false` directly), restart after a
crash, and resume from pause.  `targetIsCanvas` stands for the
`e.target == this.canvas` test. -/
def onKeyUp (updFrame : RunnerState → RunnerState) (now : ℚ) (keyCode : ℤ)
    (evType : InputEventType) (targetIsCanvas : Bool) (s : RunnerState) :
    RunnerState :=
  let isjumpKey := jumpKeycode keyCode ∨ evType = InputEventType.touchend ∨
    evType = InputEventType.mousedown
  if s.raqId ≠ 0 ∧ isjumpKey then
    { s with tRex := Trex.endJump s.tRex }
  else if duckKeycode keyCode then
    { s with tRex := { s.tRex with speedDrop := false } }
  else if s.crashed then
    if restartKeycode keyCode ∨ (evType = InputEventType.mouseup ∧ targetIsCanvas) ∨
        (now - s.time ≥ GAMEOVER_CLEAR_TIME ∧ jumpKeycode keyCode) then
      restart updFrame now s
    else s
  else if s.paused ∧ isjumpKey then play updFrame now s
  else s

end Runner

/-- C8, counterexample.  The claim asserts `speedDrop`, once set during a
jump, cannot be unset by any reachable command before the jump completes.
But releasing the down-arrow key (keycode 40) while the actor is still
mid-jump takes `onKeyUp`'s duck branch, which sets `tRex.speedDrop =
false` directly while `jumping` remains true. -/
theorem claim_C8_counterexample :
    (Runner.onKeyUp id 0 40 InputEventType.keyup false
      { raqId := 1, time := 0, runningTime := 1000, distanceRan := 500,
        currentSpeed := 6, highestScore := 0, activated := true, crashed := false,
        paused := false, playCount := 1, dimensionsWidth := 600, obstacles := [],
        distanceMeter := ⟨false, 0, 0, DistanceMeter.defaultDigits⟩,
        tRex := { xPos := 50, yPos := 60, groundYPos := 93, minJumpHeight := 63,
                  status := TrexStatus.JUMPING, jumping := true, jumpVelocity := 1,
                  reachedMinHeight := true, speedDrop := true,
                  jumpCount := 0 } }).tRex.speedDrop = false ∧
    (Runner.onKeyUp id 0 40 InputEventType.keyup false
      { raqId := 1, time := 0, runningTime := 1000, distanceRan := 500,
        currentSpeed := 6, highestScore := 0, activated := true, crashed := false,
        paused := false, playCount := 1, dimensionsWidth := 600, obstacles := [],
        distanceMeter := ⟨false, 0, 0, DistanceMeter.defaultDigits⟩,
        tRex := { xPos := 50, yPos := 60, groundYPos := 93, minJumpHeight := 63,
                  status := TrexStatus.JUMPING, jumping := true, jumpVelocity := 1,
                  reachedMinHeight := true, speedDrop := true,
                  jumpCount := 0 } }).tRex.jumping = true := by
  simp +decide [Runner.onKeyUp, Runner.jumpKeycode, Runner.duckKeycode]

/-- C8, amended.  `speedDrop` is settable only while jumping (the duck
keydown is a no-op when not jumping, and applies `setSpeedDrop` when
jumping); the jump physics itself never unsets it before the jump
completes (one update either keeps `speedDrop` and `jumping` both set, or
completes the jump, landing the actor and clearing both); but it is not
one-way across commands: the duck-key release handler unsets it
immediately, even mid-jump. -/
theorem claim_C8_speed_drop_lifecycle (d : ℚ) (t : TrexState)
    (hsd : t.speedDrop = true) (hj : t.jumping = true) :
    (((Trex.updateJump d t).speedDrop = true ∧ (Trex.updateJump d t).jumping = true) ∨
     ((Trex.updateJump d t).speedDrop = false ∧ (Trex.updateJump d t).jumping = false ∧
      (Trex.updateJump d t).yPos = t.groundYPos)) ∧
    (∀ (updFrame : RunnerState → RunnerState) (now : ℚ) (tc : Bool) (s : RunnerState),
      (Runner.onKeyUp updFrame now 40 InputEventType.keyup tc s).tRex.speedDrop =
        false) ∧
    (∀ (updFrame : RunnerState → RunnerState) (now : ℚ) (tb tc : Bool)
        (s : RunnerState), s.tRex.jumping = false →
      Runner.onKeyDown updFrame now 40 InputEventType.keydown tb tc s = s) ∧
    (∀ (updFrame : RunnerState → RunnerState) (now : ℚ) (tb tc : Bool)
        (s : RunnerState), s.tRex.jumping = true →
      (Runner.onKeyDown updFrame now 40 InputEventType.keydown tb tc s).tRex =
        Trex.setSpeedDrop s.tRex) := by
  refine ⟨?_, ?_, ?_, ?_⟩
  · by_cases hg : Trex.jumpDisplacedY d t > t.groundYPos
    · right
      simp [Trex.updateJump, Trex.endJump, Trex.reset, hsd, hg, apply_ite]
    · left
      simp [Trex.updateJump, Trex.endJump, hsd, hj, hg, apply_ite]
  · intro updFrame now tc s
    simp +decide [Runner.onKeyUp, Runner.jumpKeycode, Runner.duckKeycode]
  · intro updFrame now tb tc s hnj
    simp +decide [Runner.onKeyDown, Runner.jumpKeycode, Runner.duckKeycode, hnj]
  · intro updFrame now tb tc s hja
    simp +decide [Runner.onKeyDown, Runner.jumpKeycode, Runner.duckKeycode, hja]

/-- Witness for C8 (amended): a mid-jump speed-dropping actor with a
one-frame delta time. -/
theorem claim_C8_speed_drop_lifecycle_witness :
    (((Trex.updateJump (1000/60)
        { xPos := 50, yPos := 60, groundYPos := 93, minJumpHeight := 63,
          status := TrexStatus.JUMPING, jumping := true, jumpVelocity := 1,
          reachedMinHeight := true, speedDrop := true, jumpCount := 0 }).speedDrop = true ∧
      (Trex.updateJump (1000/60)
        { xPos := 50, yPos := 60, groundYPos := 93, minJumpHeight := 63,
          status := TrexStatus.JUMPING, jumping := true, jumpVelocity := 1,
          reachedMinHeight := true, speedDrop := true, jumpCount := 0 }).jumping = true) ∨
     ((Trex.updateJump (1000/60)
        { xPos := 50, yPos := 60, groundYPos := 93, minJumpHeight := 63,
          status := TrexStatus.JUMPING, jumping := true, jumpVelocity := 1,
          reachedMinHeight := true, speedDrop := true, jumpCount := 0 }).speedDrop = false ∧
      (Trex.updateJump (1000/60)
        { xPos := 50, yPos := 60, groundYPos := 93, minJumpHeight := 63,
          status := TrexStatus.JUMPING, jumping := true, jumpVelocity := 1,
          reachedMinHeight := true, speedDrop := true, jumpCount := 0 }).jumping = false ∧
      (Trex.updateJump (1000/60)
        { xPos := 50, yPos := 60, groundYPos := 93, minJumpHeight := 63,
          status := TrexStatus.JUMPING, jumping := true, jumpVelocity := 1,
          reachedMinHeight := true, speedDrop := true, jumpCount := 0 }).yPos = 93)) ∧
    (∀ (updFrame : RunnerState → RunnerState) (now : ℚ) (tc : Bool) (s : RunnerState),
      (Runner.onKeyUp updFrame now 40 InputEventType.keyup tc s).tRex.speedDrop =
        false) ∧
    (∀ (updFrame : RunnerState → RunnerState) (now : ℚ) (tb tc : Bool)
        (s : RunnerState), s.tRex.jumping = false →
      Runner.onKeyDown updFrame now 40 InputEventType.keydown tb tc s = s) ∧
    (∀ (updFrame : RunnerState → RunnerState) (now : ℚ) (tb tc : Bool)
        (s : RunnerState), s.tRex.jumping = true →
      (Runner.onKeyDown updFrame now 40 InputEventType.keydown tb tc s).tRex =
        Trex.setSpeedDrop s.tRex) :=
  claim_C8_speed_drop_lifecycle (1000/60)
    { xPos := 50, yPos := 60, groundYPos := 93, minJumpHeight := 63,
      status := TrexStatus.JUMPING, jumping := true, jumpVelocity := 1,
      reachedMinHeight := true, speedDrop := true, jumpCount := 0 } rfl rfl

/-- C10.  Calling `restart()` while the frame loop is still active
(`raqId ≠ 0`) is a complete no-op: the entire state — `distanceRan`,
`runningTime`, `crashed`, `activated`, `currentSpeed`, the obstacle list,
the distance meter and the actor — is returned unchanged; the documented
restart effects can therefore only occur when the loop has been stopped
(`raqId = 0`). -/
theorem claim_C10_restart_noop (updFrame : RunnerState → RunnerState) (now : ℚ)
    (s : RunnerState) (h : s.raqId ≠ 0) :
    Runner.restart updFrame now s = s := by
  simp [Runner.restart, h]

/-- Witness for C10: a crashed but still-scheduled state (`raqId = 1`) is
untouched by `restart`. -/
theorem claim_C10_restart_noop_witness :
    Runner.restart id 0
      { raqId := 1, time := 5, runningTime := 1000, distanceRan := 500,
        currentSpeed := 6, highestScore := 0, activated := true, crashed := true,
        paused := false, playCount := 1, dimensionsWidth := 600, obstacles := [],
        distanceMeter := ⟨false, 0, 0, DistanceMeter.defaultDigits⟩,
        tRex := { xPos := 50, yPos := 93, groundYPos := 93, minJumpHeight := 63,
                  status := TrexStatus.CRASHED, jumping := false, jumpVelocity := 0,
                  reachedMinHeight := false, speedDrop := false, jumpCount := 0 } } =
      { raqId := 1, time := 5, runningTime := 1000, distanceRan := 500,
        currentSpeed := 6, highestScore := 0, activated := true, crashed := true,
        paused := false, playCount := 1, dimensionsWidth := 600, obstacles := [],
        distanceMeter := ⟨false, 0, 0, DistanceMeter.defaultDigits⟩,
        tRex := { xPos := 50, yPos := 93, groundYPos := 93, minJumpHeight := 63,
                  status := TrexStatus.CRASHED, jumping := false, jumpVelocity := 0,
                  reachedMinHeight := false, speedDrop := false, jumpCount := 0 } } :=
  claim_C10_restart_noop id 0 _ (by norm_num)
